import Mathlib

/-!
Shallow embedding of the sms-frontend repository (a React administrative
frontend for a customer-retention platform) and proofs about its
client-side validation, form, and API-client logic.

Strings are modelled as Lean Strings; the JavaScript string and regex
operations used by the code are given explicit executable definitions on
the underlying character lists.  Numbers entered in interval fields are
modelled as rationals (the code steps them by 0.5); integer fields as Int.
A parseFloat result is modelled as an Option value, none standing for NaN.
-/

namespace Js

/-- Whitespace class of the JavaScript regex escape \s (ASCII part). -/
def isWs (c : Char) : Bool :=
  c == ' ' || c == '\t' || c == '\n' || c == '\r' || c == '\x0b' || c == '\x0c'

/-- Lowercase ASCII letter. -/
def isLowerAlpha (c : Char) : Bool := 'a' ≤ c && c ≤ 'z'

/-- ASCII digit. -/
def isDigitCh (c : Char) : Bool := '0' ≤ c && c ≤ '9'

/-- Character class of the slug regex [a-z0-9-]. -/
def isSlugChar (c : Char) : Bool := isLowerAlpha c || isDigitCh c || c == '-'

/-- Models String.prototype.replace with pattern \s+ (global) and
replacement "-": every maximal run of whitespace becomes one hyphen.
The Boolean argument records whether the previous character was whitespace. -/
def squashWsToHyphen : Bool → List Char → List Char
  | _, [] => []
  | prev, c :: cs =>
    if isWs c then
      if prev then squashWsToHyphen true cs
      else '-' :: squashWsToHyphen true cs
    else c :: squashWsToHyphen false cs

/-- Models String.prototype.replace with pattern -+ (global) and
replacement "-": every maximal run of hyphens becomes one hyphen. -/
def squashHyphens : Bool → List Char → List Char
  | _, [] => []
  | prev, c :: cs =>
    if c == '-' then
      if prev then squashHyphens true cs
      else '-' :: squashHyphens true cs
    else c :: squashHyphens false cs

/-- Models String.prototype.trim on a character list. -/
def trimL (l : List Char) : List Char :=
  ((l.dropWhile fun c => isWs c).reverse.dropWhile fun c => isWs c).reverse

/-- Models String.prototype.trim. -/
def jsTrim (s : String) : String := ⟨trimL s.data⟩

/-- Models the regex test of slug validation, pattern [a-z0-9-]+ anchored
at both ends. -/
def slugTest (s : String) : Bool :=
  !s.data.isEmpty && s.data.all isSlugChar

/-- Character allowed by the email regex classes (anything except
whitespace and the at sign). -/
def isEmailClassChar (c : Char) : Bool := !isWs c && c != '@'

/-- Models the test of the email regex: one nonempty run of characters
outside whitespace and at signs, one at sign, then a nonempty run, a dot,
and a nonempty run of the same class. -/
def emailTest (s : String) : Bool :=
  let l := s.data
  let a := l.takeWhile fun c => c != '@'
  match l.drop a.length with
  | '@' :: b =>
    !a.isEmpty && a.all isEmailClassChar &&
    !b.isEmpty && b.all isEmailClassChar &&
    ((b.drop 1).dropLast.contains '.')
  | _ => false

/-- Models the phone regex test (an optional plus, a digit 1 to 9, then
1 to 14 digits) applied after removing all whitespace, as the code does
with value.replace of pattern \s (global) by the empty string. -/
def phoneCore : List Char → Bool
  | [] => false
  | c :: rest =>
    ('1' ≤ c && c ≤ '9') && decide (1 ≤ rest.length) &&
    decide (rest.length ≤ 14) && rest.all isDigitCh

/-- Full phone validation as the code performs it. -/
def phoneTest (s : String) : Bool :=
  match s.data.filter fun c => !isWs c with
  | '+' :: r => phoneCore r
  | r => phoneCore r

/-- No two consecutive hyphens occur in the list. -/
def noDoubleHyphen : List Char → Bool
  | [] => true
  | [_] => true
  | a :: b :: rest => !(a == '-' && b == '-') && noDoubleHyphen (b :: rest)

end Js

/-- Network requests the embedded handlers can issue. -/
inductive Request where
  | putServiceInterval (businessId serviceName : String) (months : ℚ)
  | createBusiness
  | updateBusiness (id : String)
  | importPriceList (businessId : String)
  | deleteBusiness (id : String)
  | deleteUser (id : String)
  | getBusinesses
  | getUsers
deriving DecidableEq

namespace BF

/-! Embedding of src/src/components/BusinessForm.tsx. -/

/-- Per the post_appointment object of the sms_settings form state. -/
structure SmsPostAppointment where
  enabled : Bool
  delay_hours : Int
  business_hours_only : Bool
  skip_weekends : Bool
  send_start_time : String
  send_end_time : String
deriving DecidableEq

/-- Per the retention object of the sms_settings form state. -/
structure SmsRetention where
  enabled : Bool
  default_interval_months : ℚ
deriving DecidableEq

/-- The sms_settings object of the form state. -/
structure SmsSettings where
  post_appointment : SmsPostAppointment
  retention : SmsRetention
deriving DecidableEq

/-- A staff member entry of the staff_members list. -/
structure StaffMember where
  id : Option String
  name : String
  tone_of_voice : String
  is_active : Bool
deriving DecidableEq

/-- A value of the service_intervals mapping. -/
structure ServiceConfig where
  interval_months : ℚ
  template : Option String
deriving DecidableEq

/-- The BusinessFormData state of the form component, with every field the
component initializes. -/
structure FormData where
  name : String
  slug : String
  contact_phone : String
  contact_email : String
  sms_phone_number : String
  google_review_link : String
  google_review_url : String
  bokadirekt_url : String
  tone_of_voice : String
  sms_sender_name : String
  inactive_customer_days : Int
  staff_members : List StaffMember
  org_number : String
  billing_address : String
  vat_number : String
  sms_settings : SmsSettings
  service_intervals : List (String × ServiceConfig)
  bokadirekt_webhook_secret : String
  bokadirekt_location_id : String
deriving DecidableEq

/-- A Business object as returned by a GET: every field the form reads is
optional on the wire (the TypeScript type marks them so, and the code
guards each read with optional chaining). -/
structure Business where
  id : Option String
  name : Option String
  slug : Option String
  contact_phone : Option String
  contact_email : Option String
  sms_phone_number : Option String
  google_review_link : Option String
  google_review_url : Option String
  bokadirekt_url : Option String
  tone_of_voice : Option String
  sms_sender_name : Option String
  inactive_customer_days : Option Int
  staff_members : Option (List StaffMember)
  org_number : Option String
  billing_address : Option String
  vat_number : Option String
  sms_settings : Option SmsSettings
  service_intervals : Option (List (String × ServiceConfig))
  bokadirekt_webhook_secret : Option String
  bokadirekt_location_id : Option String
deriving DecidableEq

/-- JavaScript disjunction defaulting for a string field: the default is
taken when the field is absent or is the empty string (the only falsy
string). -/
def strOr (v : Option String) (d : String) : String :=
  match v with
  | some s => if s = "" then d else s
  | none => d

/-- JavaScript disjunction defaulting for a number field: the default is
taken when the field is absent or is zero. -/
def intOr (v : Option Int) (d : Int) : Int :=
  match v with
  | some n => if n = 0 then d else n
  | none => d

/-- JavaScript disjunction defaulting for an object or array field:
objects and arrays are always truthy, so the default is taken only when
the field is absent. -/
def objOr {α : Type} (v : Option α) (d : α) : α := v.getD d

/-- The default sms_settings object written in the useState initializer. -/
def defaultSmsSettings : SmsSettings :=
  { post_appointment :=
      { enabled := true
        delay_hours := 20
        business_hours_only := true
        skip_weekends := false
        send_start_time := "09:00"
        send_end_time := "18:00" }
    retention :=
      { enabled := true
        default_interval_months := 3 } }

/-- The useState initializer of the form component: every field of
initialData is read with optional chaining and defaulted with JavaScript
disjunction. -/
def initFormData (initialData : Option Business) : FormData :=
  { name := strOr (initialData.bind Business.name) ""
    slug := strOr (initialData.bind Business.slug) ""
    contact_phone := strOr (initialData.bind Business.contact_phone) ""
    contact_email := strOr (initialData.bind Business.contact_email) ""
    sms_phone_number := strOr (initialData.bind Business.sms_phone_number) ""
    google_review_link := strOr (initialData.bind Business.google_review_link) ""
    google_review_url := strOr (initialData.bind Business.google_review_url) ""
    bokadirekt_url := strOr (initialData.bind Business.bokadirekt_url) ""
    tone_of_voice := strOr (initialData.bind Business.tone_of_voice) "Proffsig"
    sms_sender_name := strOr (initialData.bind Business.sms_sender_name) ""
    inactive_customer_days := intOr (initialData.bind Business.inactive_customer_days) 90
    staff_members := objOr (initialData.bind Business.staff_members) []
    org_number := strOr (initialData.bind Business.org_number) ""
    billing_address := strOr (initialData.bind Business.billing_address) ""
    vat_number := strOr (initialData.bind Business.vat_number) ""
    sms_settings := objOr (initialData.bind Business.sms_settings) defaultSmsSettings
    service_intervals := objOr (initialData.bind Business.service_intervals) []
    bokadirekt_webhook_secret := strOr (initialData.bind Business.bokadirekt_webhook_secret) ""
    bokadirekt_location_id := strOr (initialData.bind Business.bokadirekt_location_id) "" }

/-- Errors the validate function records for the name field. -/
def nameErrors (name : String) : List (String × String) :=
  if Js.jsTrim name = "" then [("name", "Business name is required")] else []

/-- Errors the validate function records for the slug field: this variant
only requires the slug to be nonempty after trimming. -/
def slugErrors (slug : String) : List (String × String) :=
  if Js.jsTrim slug = "" then [("slug", "Slug is required")] else []

/-- Errors the validate function records for inactive_customer_days. -/
def inactiveErrors (d : Int) : List (String × String) :=
  if d < 30 ∨ d > 365 then
    [("inactive_customer_days", "Must be between 30 and 365 days")]
  else []

/-- The newErrors record built by validate, as a keyed list; the keys of
the three blocks are distinct, matching assignment to distinct fields. -/
def validateErrors (fd : FormData) : List (String × String) :=
  nameErrors fd.name ++ slugErrors fd.slug ++ inactiveErrors fd.inactive_customer_days

/-- The Boolean result of validate: true iff no error was recorded. -/
def validate (fd : FormData) : Bool := (validateErrors fd).isEmpty

/-- Whether the error record has an entry for a field. -/
def fieldError (es : List (String × String)) (k : String) : Bool :=
  es.any fun p => p.1 == k

/-- handleSubmit: when validate passes, onSubmit receives the form state
together with the selected price-list file; otherwise it is not invoked
(result none). -/
def handleSubmit (fd : FormData) (priceListFile : Option String) :
    Option (FormData × Option String) :=
  if validate fd then some (fd, priceListFile) else none

/-- generateSlug: lowercase the name, delete every character outside
lowercase letters, digits, whitespace and hyphens, replace whitespace
runs by one hyphen, collapse hyphen runs, and trim. -/
def generateSlug (name : String) : String :=
  ⟨Js.trimL (Js.squashHyphens false (Js.squashWsToHyphen false
    ((name.data.map Char.toLower).filter fun c => Js.isSlugChar c || Js.isWs c)))⟩

end BF

namespace BF1

/-! Embedding of the second BusinessForm variant (src/unnamed/part_001),
whose validate checks the slug regex, email, phone and retention bounds
but not inactive_customer_days. -/

/-- The BusinessFormData state of the part_001 form variant. -/
structure FormData1 where
  name : String
  slug : String
  contact_phone : String
  contact_email : String
  twilio_phone_number : String
  google_review_link : String
  inactive_customer_days : Int
  retention_months_new : Int
  retention_months_returning : Int
  retention_days_after_booking : Int
  sms_send_time_type : String
  sms_send_time : String
  sms_send_time_start : String
  sms_send_time_end : String
  bokadirekt_webhook_secret : String
deriving DecidableEq

/-- Name errors of the part_001 validate. -/
def nameErrors1 (name : String) : List (String × String) :=
  if Js.jsTrim name = "" then [("name", "Business name is required")] else []

/-- Slug errors of the part_001 validate: required, then the regex test
on the untrimmed slug. -/
def slugErrors1 (slug : String) : List (String × String) :=
  if Js.jsTrim slug = "" then [("slug", "Slug is required")]
  else if !Js.slugTest slug then
    [("slug", "Slug must contain only lowercase letters, numbers, and hyphens")]
  else []

/-- Email errors: checked only when the field is truthy (nonempty). -/
def emailErrors1 (email : String) : List (String × String) :=
  if email ≠ "" ∧ !Js.emailTest email then
    [("contact_email", "Invalid email address")]
  else []

/-- Phone errors: checked only when the field is truthy (nonempty). -/
def phoneErrors1 (phone : String) : List (String × String) :=
  if phone ≠ "" ∧ !Js.phoneTest phone then
    [("twilio_phone_number", "Invalid phone number format (e.g., +46 70 123 45 67)")]
  else []

/-- Range errors for retention_months_new. -/
def retentionNewErrors1 (n : Int) : List (String × String) :=
  if n < 1 ∨ n > 24 then [("retention_months_new", "Must be between 1 and 24 months")]
  else []

/-- Range errors for retention_months_returning. -/
def retentionReturningErrors1 (n : Int) : List (String × String) :=
  if n < 1 ∨ n > 24 then
    [("retention_months_returning", "Must be between 1 and 24 months")]
  else []

/-- Range errors for retention_days_after_booking. -/
def retentionDaysErrors1 (n : Int) : List (String × String) :=
  if n < 1 ∨ n > 200 then
    [("retention_days_after_booking", "Must be between 1 and 200 days")]
  else []

/-- The newErrors record built by the part_001 validate; field keys of
the blocks are pairwise distinct, matching assignment to distinct
fields.  Note that inactive_customer_days is never examined. -/
def validateErrors1 (fd : FormData1) : List (String × String) :=
  nameErrors1 fd.name ++ slugErrors1 fd.slug ++ emailErrors1 fd.contact_email ++
  phoneErrors1 fd.twilio_phone_number ++ retentionNewErrors1 fd.retention_months_new ++
  retentionReturningErrors1 fd.retention_months_returning ++
  retentionDaysErrors1 fd.retention_days_after_booking

/-- The Boolean result of the part_001 validate. -/
def validate1 (fd : FormData1) : Bool := (validateErrors1 fd).isEmpty

/-- The part_001 handleSubmit: onSubmit receives the form state together
with the price-list file only when validate passes. -/
def handleSubmit1 (fd : FormData1) (priceListFile : Option String) :
    Option (FormData1 × Option String) :=
  if validate1 fd then some (fd, priceListFile) else none

end BF1

namespace SM

/-! Embedding of ServiceManager (src/unnamed/part_002): the services
Record is modelled as a map from service names to entries. -/

/-- A value of the services record. -/
structure SMService where
  interval_months : ℚ
  template : Option String
deriving DecidableEq

/-- The services record of ServiceManager. -/
def SMap : Type := String → Option SMService

/-- handleAddService: a blank trimmed name is refused; otherwise the
entry at the trimmed name is written (object spread then keyed write,
overwriting any existing entry) with the entered interval and the
standard template. -/
def handleAddService (services : SMap) (newServiceName : String)
    (newServiceInterval : ℚ) : SMap :=
  if Js.jsTrim newServiceName = "" then services
  else fun k =>
    if k = Js.jsTrim newServiceName then
      some { interval_months := newServiceInterval, template := some "standard" }
    else services k

/-- handleRemoveService: delete of the key from a copy of the record. -/
def handleRemoveService (services : SMap) (serviceName : String) : SMap :=
  fun k => if k = serviceName then none else services k

/-- handleUpdateService: the entry at the key is replaced by a spread of
the existing entry with interval_months overwritten by the given value;
no bound on the value is checked. -/
def handleUpdateService (services : SMap) (serviceName : String) (value : ℚ) : SMap :=
  fun k =>
    if k = serviceName then
      some { interval_months := value
             template := (services serviceName).bind SMService.template }
    else services k

end SM

namespace SRA

/-! Embedding of parseInterval from src/src/services/serviceRetentionApi.js.
The argument models parseFloat of the raw input; none stands for NaN. -/

/-- parseInterval: null outside [0.5, 12] or on NaN, the number itself
inside the range. -/
def parseInterval (v : Option ℚ) : Option ℚ :=
  match v with
  | none => none
  | some q => if q < 1/2 ∨ q > 12 then none else some q

end SRA

namespace SRI

/-! Embedding of handleIntervalChange from ServiceRetentionIntervals
(src/unnamed/part_006): requests issued by one invocation. -/

/-- handleIntervalChange returns with no request when parseInterval is
null; otherwise it issues exactly one PUT to the service-intervals
endpoint with the parsed value. -/
def handleIntervalChange (businessId serviceName : String) (v : Option ℚ) :
    List Request :=
  match SRA.parseInterval v with
  | none => []
  | some q => [Request.putServiceInterval businessId serviceName q]

end SRI

namespace BM

/-! Embedding of BusinessManagement (src/unnamed/part_004):
handleFormSubmit and handleDeleteBusiness, as functions from the
parameters of one invocation (the form data facts that matter and the
outcomes of the backend calls) to the issued requests and the alerts
shown. -/

/-- The structured result object of a price-list import. -/
structure ImportCounts where
  imported : Int
  duplicates : Int
  errors : Int
deriving DecidableEq

/-- Alerts handleFormSubmit can show. -/
inductive Alert where
  | createdWithImport (c : ImportCounts)
  | importFailedWarning (detail : String)
  | createdOk
  | updatedOk
  | saveFailed (detail : String)
deriving DecidableEq

/-- handleFormSubmit.  editing carries the id of the business being
edited, none on creation; hasPriceListFile records whether a file was
attached; the Except arguments are the outcomes of the create, update
and import calls.  The import branch runs only on creation with a file and
after the create call succeeded; a failure of it is caught by the inner
try/catch, shown as a warning, and the refresh fetch still runs. -/
def handleFormSubmit (editing : Option String) (hasPriceListFile : Bool)
    (createRes : Except String String) (updateRes : Except String Unit)
    (importRes : Except String ImportCounts) : List Request × List Alert :=
  match editing with
  | some bid =>
    match updateRes with
    | .error e => ([.updateBusiness bid], [.saveFailed e])
    | .ok _ => ([.updateBusiness bid, .getBusinesses], [.updatedOk])
  | none =>
    match createRes with
    | .error e => ([.createBusiness], [.saveFailed e])
    | .ok bid =>
      if hasPriceListFile then
        match importRes with
        | .ok c =>
          ([.createBusiness, .importPriceList bid, .getBusinesses],
           [.createdWithImport c])
        | .error e =>
          ([.createBusiness, .importPriceList bid, .getBusinesses],
           [.importFailedWarning e])
      else ([.createBusiness, .getBusinesses], [.createdOk])

/-- Whether a request is the business delete. -/
def isDeleteBusiness : Request → Bool
  | .deleteBusiness _ => true
  | _ => false

/-- handleDeleteBusiness: a declined window.confirm returns before any
call, leaving the displayed list untouched; a confirmed one issues the
DELETE and, on success, refetches the collection from the server. -/
def handleDeleteBusiness (confirmed : Bool) (businessId : String)
    (deleteRes : Except String Unit) (businesses serverList : List String) :
    List Request × List String :=
  if !confirmed then ([], businesses)
  else
    match deleteRes with
    | .ok _ => ([.deleteBusiness businessId, .getBusinesses], serverList)
    | .error _ => ([.deleteBusiness businessId], businesses)

end BM

namespace UM

/-! Embedding of handleDeleteUser from UserManagement
(src/unnamed/part_001). -/

/-- handleDeleteUser: a declined window.confirm returns before any call;
a confirmed one issues the DELETE and, on success, reloads the users. -/
def handleDeleteUser (confirmed : Bool) (userId : String)
    (deleteRes : Except String Unit) (users serverUsers : List String) :
    List Request × List String :=
  if !confirmed then ([], users)
  else
    match deleteRes with
    | .ok _ => ([.deleteUser userId, .getUsers], serverUsers)
    | .error _ => ([.deleteUser userId], users)

end UM

namespace API

/-! Embedding of the response interceptor of the API client
(src/src/services/api.ts). -/

/-- The two local-storage entries the client manages. -/
structure Storage where
  access_token : Option String
  user : Option String
deriving DecidableEq

/-- Navigation actions. -/
inductive Nav where
  | toLogin
deriving DecidableEq

/-- The error branch of the response interceptor, applied to one failed
response: on status 401 both storage keys are removed and the location is
set to /login; in every case the rejected promise propagates the error. -/
def onResponseError (st : Storage) (status : Nat) (e : String) :
    Storage × List Nav × Except String Unit :=
  if status = 401 then ({ access_token := none, user := none }, [Nav.toLogin], .error e)
  else (st, [], .error e)

end API

namespace AUTH

/-! Embedding of login and logout from AuthContext
(src/src/contexts/AuthContext.tsx).  A run of login is a function of the
outcomes of the login POST and the current-user GET; it returns the
resulting storage, the in-memory user, and the propagated result. -/

/-- login: on POST success the token is stored, then the current user is
fetched and stored; any failure is caught, both storage keys are removed,
and the error is rethrown (the in-memory user is left as it was, since
setUser runs only on the success path). -/
def login (st : API.Storage) (currentUser : Option String)
    (loginRes : Except String String) (meRes : Except String String) :
    API.Storage × Option String × Except String Unit :=
  match loginRes with
  | .error e => ({ access_token := none, user := none }, currentUser, .error e)
  | .ok tok =>
    match meRes with
    | .ok u => ({ access_token := some tok, user := some u }, some u, .ok ())
    | .error e => ({ access_token := none, user := none }, currentUser, .error e)

/-- logout: both storage keys are removed and the in-memory user reset. -/
def logout (st : API.Storage) (currentUser : Option String) :
    API.Storage × Option String :=
  ({ access_token := none, user := none }, none)

end AUTH

/-- A concrete services record used in examples. -/
def SM.sampleServices : SM.SMap :=
  fun k =>
    if k = "Herrklippning" then some { interval_months := 2, template := some "standard" }
    else none

/-- C4: every response with HTTP status 401 makes the global response
interceptor remove both the access_token and user entries from local
storage, navigate to /login exactly once, and still propagate the error
to the caller. -/
theorem c4_interceptor_401 (st : API.Storage) (e : String) :
    API.onResponseError st 401 e =
      ({ access_token := none, user := none }, [API.Nav.toLogin], Except.error e) := by
  simp [API.onResponseError]

/-- C5: for delete actions on a user or a business, declining the
window.confirm prompt issues zero DELETE requests and leaves the
displayed collection unchanged, while confirming issues exactly one
DELETE request for that record id. -/
theorem c5_delete_confirmation (uid bid : String) (dres : Except String Unit)
    (users serverUsers businesses serverBusinesses : List String) :
    UM.handleDeleteUser false uid dres users serverUsers = ([], users) ∧
    (UM.handleDeleteUser true uid dres users serverUsers).1.count (Request.deleteUser uid) = 1 ∧
    BM.handleDeleteBusiness false bid dres businesses serverBusinesses = ([], businesses) ∧
    (BM.handleDeleteBusiness true bid dres businesses serverBusinesses).1.count
      (Request.deleteBusiness bid) = 1 := by
  cases dres <;>
    simp [UM.handleDeleteUser, BM.handleDeleteBusiness, List.count_cons]

/-- C10: whenever AuthContext.login propagates a failure (of either the
login POST or the current-user GET), it has removed both the
access_token and user entries from local storage first; and logout
removes both keys and resets the in-memory user to null. -/
theorem c10_auth_cleanup (st : API.Storage) (cu : Option String)
    (lres mres : Except String String) :
    (∀ e : String, (AUTH.login st cu lres mres).2.2 = Except.error e →
      (AUTH.login st cu lres mres).1 = { access_token := none, user := none }) ∧
    AUTH.logout st cu = ({ access_token := none, user := none }, none) := by
  cases lres <;> cases mres <;> simp [AUTH.login, AUTH.logout]

/-- Witness for C10 at a concrete failed login and a concrete logout. -/
theorem c10_auth_cleanup_witness :
    (AUTH.login { access_token := some "tok", user := some "u" } (some "u")
      (Except.error "bad credentials") (Except.ok "u")).1 =
      { access_token := none, user := none } ∧
    AUTH.logout { access_token := some "tok", user := some "u" } (some "u") =
      ({ access_token := none, user := none }, none) :=
  ⟨(c10_auth_cleanup { access_token := some "tok", user := some "u" } (some "u")
      (Except.error "bad credentials") (Except.ok "u")).1 "bad credentials" rfl,
   (c10_auth_cleanup { access_token := some "tok", user := some "u" } (some "u")
      (Except.error "bad credentials") (Except.ok "u")).2⟩

/-- C2 (amended): parseInterval maps NaN and every value outside
[0.5, 12] to null and handleIntervalChange then issues no request;
an in-range value is returned as is and exactly one PUT to the
service-intervals endpoint is issued.  (The ServiceManager part of the
original claim fails; see the counterexample.) -/
theorem c2_interval_bound (bid sname : String) (v : Option ℚ) :
    (v = none → SRA.parseInterval v = none ∧
      SRI.handleIntervalChange bid sname v = []) ∧
    (∀ q : ℚ, v = some q → q < 1/2 ∨ q > 12 →
      SRA.parseInterval v = none ∧ SRI.handleIntervalChange bid sname v = []) ∧
    (∀ q : ℚ, v = some q → 1/2 ≤ q → q ≤ 12 →
      SRA.parseInterval v = some q ∧
      SRI.handleIntervalChange bid sname v = [Request.putServiceInterval bid sname q]) := by
  refine ⟨?_, ?_, ?_⟩
  · rintro rfl
    simp [SRA.parseInterval, SRI.handleIntervalChange]
  · rintro q rfl h
    have hp : SRA.parseInterval (some q) = none := by
      simp only [SRA.parseInterval]
      rw [if_pos h]
    refine ⟨hp, ?_⟩
    simp only [SRI.handleIntervalChange, hp]
  · rintro q rfl h1 h2
    have hcond : ¬ (q < 1/2 ∨ q > 12) := by
      push_neg
      exact ⟨h1, h2⟩
    have hp : SRA.parseInterval (some q) = some q := by
      simp only [SRA.parseInterval]
      rw [if_neg hcond]
    refine ⟨hp, ?_⟩
    simp only [SRI.handleIntervalChange, hp]

/-- Witness for C2 at the out-of-range value 13 and the in-range value 2. -/
theorem c2_interval_bound_witness :
    (SRA.parseInterval (some 13) = none ∧
      SRI.handleIntervalChange "b1" "Herrklippning" (some 13) = []) ∧
    (SRA.parseInterval (some 2) = some 2 ∧
      SRI.handleIntervalChange "b1" "Herrklippning" (some 2) =
        [Request.putServiceInterval "b1" "Herrklippning" 2]) :=
  ⟨(c2_interval_bound "b1" "Herrklippning" (some 13)).2.1 13 rfl (by norm_num),
   (c2_interval_bound "b1" "Herrklippning" (some 2)).2.2 2 rfl (by norm_num) (by norm_num)⟩

/-- Counterexample for C2 as stated: ServiceManager.handleUpdateService
does not reject an interval edit outside [0.5, 12]; the out-of-range
value 0 is written into the services record unchanged. -/
theorem c2_counterexample :
    (0 : ℚ) < 1/2 ∧
    SM.handleUpdateService SM.sampleServices "Herrklippning" 0 "Herrklippning" =
      some { interval_months := 0, template := some "standard" } ∧
    SM.handleUpdateService SM.sampleServices "Herrklippning" 0 "Herrklippning" ≠
      SM.sampleServices "Herrklippning" := by
  refine ⟨by norm_num, ?_, ?_⟩ <;> decide

/-- C8: in ServiceManager, adding a trimmed nonempty service name writes
that entry with the entered interval, overwriting any existing entry at
that name while leaving every other key unchanged; removing a service
deletes exactly that key, leaving all other keys unchanged. -/
theorem c8_service_map (m : SM.SMap) (nm rm k : String) (i : ℚ)
    (h : Js.jsTrim nm ≠ "") :
    SM.handleAddService m nm i (Js.jsTrim nm) =
      some { interval_months := i, template := some "standard" } ∧
    (k ≠ Js.jsTrim nm → SM.handleAddService m nm i k = m k) ∧
    SM.handleRemoveService m rm rm = none ∧
    (k ≠ rm → SM.handleRemoveService m rm k = m k) := by
  refine ⟨?_, ?_, ?_, ?_⟩
  · simp [SM.handleAddService, h]
  · intro hk
    simp [SM.handleAddService, h, hk]
  · simp [SM.handleRemoveService]
  · intro hk
    simp [SM.handleRemoveService, hk]

/-- Witness for C8 at a concrete record, added name and removed name. -/
theorem c8_service_map_witness :
    SM.handleAddService SM.sampleServices " Slingor " 3 (Js.jsTrim " Slingor ") =
      some { interval_months := 3, template := some "standard" } ∧
    SM.handleAddService SM.sampleServices " Slingor " 3 "Herrklippning" =
      SM.sampleServices "Herrklippning" ∧
    SM.handleRemoveService SM.sampleServices "Herrklippning" "Herrklippning" = none ∧
    SM.handleRemoveService SM.sampleServices "Herrklippning" "Slingor" =
      SM.sampleServices "Slingor" :=
  ⟨(c8_service_map SM.sampleServices " Slingor " "Herrklippning" "Herrklippning" 3
      (by decide)).1,
   (c8_service_map SM.sampleServices " Slingor " "Herrklippning" "Herrklippning" 3
      (by decide)).2.1 (by decide),
   (c8_service_map SM.sampleServices " Slingor " "Herrklippning" "Slingor" 3
      (by decide)).2.2.1,
   (c8_service_map SM.sampleServices " Slingor " "Herrklippning" "Slingor" 3
      (by decide)).2.2.2 (by decide)⟩

/-- A valid form state of the src/src BusinessForm variant. -/
def BF.sampleForm : BF.FormData :=
  { name := "My Salon"
    slug := "my-salon"
    contact_phone := ""
    contact_email := ""
    sms_phone_number := ""
    google_review_link := ""
    google_review_url := ""
    bokadirekt_url := ""
    tone_of_voice := "Proffsig"
    sms_sender_name := ""
    inactive_customer_days := 90
    staff_members := []
    org_number := ""
    billing_address := ""
    vat_number := ""
    sms_settings := BF.defaultSmsSettings
    service_intervals := []
    bokadirekt_webhook_secret := ""
    bokadirekt_location_id := "" }

/-- A valid form state of the part_001 BusinessForm variant. -/
def BF1.sampleForm1 : BF1.FormData1 :=
  { name := "My Salon"
    slug := "my-salon"
    contact_phone := ""
    contact_email := ""
    twilio_phone_number := ""
    google_review_link := ""
    inactive_customer_days := 90
    retention_months_new := 3
    retention_months_returning := 2
    retention_days_after_booking := 35
    sms_send_time_type := "random"
    sms_send_time := "14:00"
    sms_send_time_start := "13:00"
    sms_send_time_end := "18:00"
    bokadirekt_webhook_secret := "" }

/-- Every entry slugErrors1 can produce is keyed by slug, and under a bad
character the block is nonempty. -/
theorem BF1.slugErrors1_bad {slug : String}
    (htest : Js.slugTest slug = false) :
    BF1.slugErrors1 slug ≠ [] ∧ ∀ p ∈ BF1.slugErrors1 slug, p.1 = "slug" := by
  unfold BF1.slugErrors1
  by_cases ht : Js.jsTrim slug = ""
  · rw [if_pos ht]
    refine ⟨by simp, ?_⟩
    intro p hp
    simp only [List.mem_singleton] at hp
    simp [hp]
  · rw [if_neg ht, htest]
    refine ⟨by simp, ?_⟩
    intro p hp
    simp only [Bool.not_false, if_true, List.mem_singleton] at hp
    simp [hp]

/-- Counterexample for C1 as stated: in the src/src BusinessForm variant,
a slug with uppercase letters passes validate, no slug error is set, and
onSubmit is invoked with the form data. -/
theorem c1_counterexample :
    ('A' ∈ "ABC".data ∧ Js.isSlugChar 'A' = false) ∧
    BF.validate { BF.sampleForm with slug := "ABC" } = true ∧
    BF.fieldError (BF.validateErrors { BF.sampleForm with slug := "ABC" }) "slug" = false ∧
    BF.handleSubmit { BF.sampleForm with slug := "ABC" } none =
      some ({ BF.sampleForm with slug := "ABC" }, none) := by
  decide

/-- C1 (amended): in the part_001 BusinessForm variant, every slug
containing a character outside [a-z0-9-] (uppercase letters, spaces and
other symbols included) is rejected: validate returns false, a slug
field error is recorded, and onSubmit is not invoked.  (The src/src
variant does not enforce the character class; see the counterexample.) -/
theorem c1_slug_validation (fd : BF1.FormData1) (file : Option String)
    (h : ∃ c ∈ fd.slug.data, Js.isSlugChar c = false) :
    BF1.validate1 fd = false ∧
    BF.fieldError (BF1.validateErrors1 fd) "slug" = true ∧
    BF1.handleSubmit1 fd file = none := by
  obtain ⟨c, hc, hbad⟩ := h
  have htest : Js.slugTest fd.slug = false := by
    unfold Js.slugTest
    have hall : fd.slug.data.all Js.isSlugChar = false := by
      cases hall : fd.slug.data.all Js.isSlugChar with
      | false => rfl
      | true => exact absurd (List.all_eq_true.mp hall c hc) (by simp [hbad])
    simp [hall]
  obtain ⟨hne, hkeys⟩ := BF1.slugErrors1_bad htest
  obtain ⟨p, rest, hpr⟩ := List.exists_cons_of_ne_nil hne
  have hpmem : p ∈ BF1.slugErrors1 fd.slug := by
    rw [hpr]
    exact List.mem_cons_self p rest
  have hmem : p ∈ BF1.validateErrors1 fd := by
    unfold BF1.validateErrors1
    simp only [List.mem_append]
    tauto
  have hval : BF1.validate1 fd = false := by
    unfold BF1.validate1
    simp [List.isEmpty_iff, List.ne_nil_of_mem hmem]
  refine ⟨hval, ?_, ?_⟩
  · unfold BF.fieldError
    exact List.any_eq_true.mpr ⟨p, hmem, by simp [hkeys p hpmem]⟩
  · unfold BF1.handleSubmit1
    rw [hval]
    rfl

/-- Witness for C1 at the uppercase slug ABC. -/
theorem c1_slug_validation_witness :
    BF1.validate1 { BF1.sampleForm1 with slug := "ABC" } = false ∧
    BF.fieldError (BF1.validateErrors1 { BF1.sampleForm1 with slug := "ABC" }) "slug" = true ∧
    BF1.handleSubmit1 { BF1.sampleForm1 with slug := "ABC" } none = none :=
  c1_slug_validation { BF1.sampleForm1 with slug := "ABC" } none
    ⟨'A', by decide, by decide⟩

/-- Counterexample for C6 as stated: in the part_001 BusinessForm
variant, validate never examines inactive_customer_days, so the value
400 (outside [30, 365]) passes and onSubmit is invoked. -/
theorem c6_counterexample :
    ((400 : Int) > 365) ∧
    BF1.validate1 { BF1.sampleForm1 with inactive_customer_days := 400 } = true ∧
    BF1.handleSubmit1 { BF1.sampleForm1 with inactive_customer_days := 400 } none =
      some ({ BF1.sampleForm1 with inactive_customer_days := 400 }, none) := by
  decide

/-- C6 (amended): in the src/src BusinessForm variant, every
inactive_customer_days value outside [30, 365] blocks submission with
the field error message, and onSubmit is not invoked.  (The part_001
variant does not check this field; see the counterexample.) -/
theorem c6_inactive_days_validation (fd : BF.FormData) (file : Option String)
    (h : fd.inactive_customer_days < 30 ∨ fd.inactive_customer_days > 365) :
    BF.inactiveErrors fd.inactive_customer_days =
      [("inactive_customer_days", "Must be between 30 and 365 days")] ∧
    BF.fieldError (BF.validateErrors fd) "inactive_customer_days" = true ∧
    BF.validate fd = false ∧
    BF.handleSubmit fd file = none := by
  have hblock : BF.inactiveErrors fd.inactive_customer_days =
      [("inactive_customer_days", "Must be between 30 and 365 days")] := by
    unfold BF.inactiveErrors
    rw [if_pos h]
  have hmem : ("inactive_customer_days", "Must be between 30 and 365 days") ∈
      BF.validateErrors fd := by
    unfold BF.validateErrors
    simp only [List.mem_append, hblock]
    simp
  have hval : BF.validate fd = false := by
    unfold BF.validate
    simp [List.isEmpty_iff, List.ne_nil_of_mem hmem]
  refine ⟨hblock, ?_, hval, ?_⟩
  · unfold BF.fieldError
    exact List.any_eq_true.mpr ⟨_, hmem, by simp⟩
  · unfold BF.handleSubmit
    rw [hval]
    rfl

/-- Witness for C6 at the out-of-range value 29. -/
theorem c6_inactive_days_validation_witness :
    BF.inactiveErrors (29 : Int) =
      [("inactive_customer_days", "Must be between 30 and 365 days")] ∧
    BF.fieldError
      (BF.validateErrors { BF.sampleForm with inactive_customer_days := 29 })
      "inactive_customer_days" = true ∧
    BF.validate { BF.sampleForm with inactive_customer_days := 29 } = false ∧
    BF.handleSubmit { BF.sampleForm with inactive_customer_days := 29 } none = none :=
  c6_inactive_days_validation { BF.sampleForm with inactive_customer_days := 29 } none
    (by decide)

/-- C3: creating a business with a price-list file issues exactly one
follow-up import POST, placed after the successful create call; a failed
create issues none; an import failure is a separate warning and
never triggers a delete of the created business; a successful import
reports the count object returned by the server. -/
theorem c3_price_list_import (createRes : Except String String)
    (updateRes : Except String Unit) (importRes : Except String BM.ImportCounts) :
    (∀ bid, createRes = Except.ok bid →
      (BM.handleFormSubmit none true createRes updateRes importRes).1 =
        [Request.createBusiness, Request.importPriceList bid, Request.getBusinesses] ∧
      (BM.handleFormSubmit none true createRes updateRes importRes).1.count
        (Request.importPriceList bid) = 1 ∧
      (∀ e, importRes = Except.error e →
        (BM.handleFormSubmit none true createRes updateRes importRes).2 =
          [BM.Alert.importFailedWarning e]) ∧
      (∀ c, importRes = Except.ok c →
        (BM.handleFormSubmit none true createRes updateRes importRes).2 =
          [BM.Alert.createdWithImport c])) ∧
    (∀ e, createRes = Except.error e →
      (BM.handleFormSubmit none true createRes updateRes importRes).1 =
        [Request.createBusiness]) ∧
    ((BM.handleFormSubmit none true createRes updateRes importRes).1.all
      fun r => !BM.isDeleteBusiness r) = true := by
  cases createRes <;> cases importRes <;>
    simp [BM.handleFormSubmit, BM.isDeleteBusiness, List.count_cons]

/-- Witness for C3 at a concrete creation with an attached file, once
with a failing import and once with a successful one. -/
theorem c3_price_list_import_witness :
    (BM.handleFormSubmit none true (Except.ok "b1") (Except.ok ())
        (Except.error "invalid csv")).1 =
      [Request.createBusiness, Request.importPriceList "b1", Request.getBusinesses] ∧
    (BM.handleFormSubmit none true (Except.ok "b1") (Except.ok ())
        (Except.error "invalid csv")).2 =
      [BM.Alert.importFailedWarning "invalid csv"] ∧
    (BM.handleFormSubmit none true (Except.ok "b1") (Except.ok ())
        (Except.ok { imported := 5, duplicates := 1, errors := 0 })).2 =
      [BM.Alert.createdWithImport { imported := 5, duplicates := 1, errors := 0 }] :=
  ⟨((c3_price_list_import (Except.ok "b1") (Except.ok ())
      (Except.error "invalid csv")).1 "b1" rfl).1,
   ((c3_price_list_import (Except.ok "b1") (Except.ok ())
      (Except.error "invalid csv")).1 "b1" rfl).2.2.1 "invalid csv" rfl,
   ((c3_price_list_import (Except.ok "b1") (Except.ok ())
      (Except.ok { imported := 5, duplicates := 1, errors := 0 })).1 "b1" rfl).2.2.2
      { imported := 5, duplicates := 1, errors := 0 } rfl⟩

/-- The head of the list is not a hyphen (vacuously true when empty). -/
def Js.headNotHyphen : List Char → Bool
  | [] => true
  | c :: _ => !(c == '-')

/-- Every character produced by the whitespace squash is a slug character,
provided every input character was a slug character or whitespace. -/
theorem Js.squashWsToHyphen_chars (b : Bool) (l : List Char)
    (h : ∀ c ∈ l, (Js.isSlugChar c || Js.isWs c) = true) :
    ∀ c ∈ Js.squashWsToHyphen b l, Js.isSlugChar c = true := by
  induction l generalizing b with
  | nil =>
    intro c hc
    simp [Js.squashWsToHyphen] at hc
  | cons a cs ih =>
    intro c hc
    have ha := h a (List.mem_cons_self a cs)
    have hcs : ∀ x ∈ cs, (Js.isSlugChar x || Js.isWs x) = true :=
      fun x hx => h x (List.mem_cons_of_mem a hx)
    cases hw : Js.isWs a with
    | true =>
      cases b with
      | true =>
        rw [show Js.squashWsToHyphen true (a :: cs) = Js.squashWsToHyphen true cs from by
          simp [Js.squashWsToHyphen, hw]] at hc
        exact ih true hcs c hc
      | false =>
        rw [show Js.squashWsToHyphen false (a :: cs) =
            '-' :: Js.squashWsToHyphen true cs from by
          simp [Js.squashWsToHyphen, hw]] at hc
        rcases List.mem_cons.mp hc with h1 | h1
        · subst h1
          decide
        · exact ih true hcs c h1
    | false =>
      rw [show Js.squashWsToHyphen b (a :: cs) = a :: Js.squashWsToHyphen false cs from by
        simp [Js.squashWsToHyphen, hw]] at hc
      rcases List.mem_cons.mp hc with h1 | h1
      · subst h1
        simp only [Bool.or_eq_true] at ha
        rcases ha with h2 | h2
        · exact h2
        · rw [hw] at h2
          exact absurd h2 (by simp)
      · exact ih false hcs c h1

/-- Every character produced by the hyphen squash occurs in its input. -/
theorem Js.squashHyphens_subset (b : Bool) (l : List Char) :
    ∀ c ∈ Js.squashHyphens b l, c ∈ l := by
  induction l generalizing b with
  | nil =>
    intro c hc
    simp [Js.squashHyphens] at hc
  | cons a cs ih =>
    intro c hc
    cases ha : a == '-' with
    | true =>
      have ha' : a = '-' := eq_of_beq ha
      cases b with
      | true =>
        rw [show Js.squashHyphens true (a :: cs) = Js.squashHyphens true cs from by
          simp [Js.squashHyphens, ha]] at hc
        exact List.mem_cons_of_mem a (ih true c hc)
      | false =>
        rw [show Js.squashHyphens false (a :: cs) =
            '-' :: Js.squashHyphens true cs from by
          simp [Js.squashHyphens, ha]] at hc
        rcases List.mem_cons.mp hc with h1 | h1
        · subst h1
          rw [ha']
          exact List.mem_cons_self '-' cs
        · exact List.mem_cons_of_mem a (ih true c h1)
    | false =>
      rw [show Js.squashHyphens b (a :: cs) = a :: Js.squashHyphens false cs from by
        simp [Js.squashHyphens, ha]] at hc
      rcases List.mem_cons.mp hc with h1 | h1
      · subst h1
        exact List.mem_cons_self c cs
      · exact List.mem_cons_of_mem a (ih false c h1)

/-- A cons keeps the no-double-hyphen property when the new head is not a
hyphen or the old head is not. -/
theorem Js.noDoubleHyphen_cons (c : Char) (t : List Char)
    (h : (c == '-') = false ∨ Js.headNotHyphen t = true)
    (ht : Js.noDoubleHyphen t = true) : Js.noDoubleHyphen (c :: t) = true := by
  cases t with
  | nil => rfl
  | cons x xs =>
    show (!(c == '-' && x == '-') && Js.noDoubleHyphen (x :: xs)) = true
    rcases h with h | h
    · simp [h, ht]
    · have hx : (x == '-') = false := by
        simpa [Js.headNotHyphen] using h
      simp [hx, ht]

/-- The hyphen squash never produces two consecutive hyphens, and in the
state where the previous character was a hyphen its output never starts
with one. -/
theorem Js.squashHyphens_noDD (l : List Char) :
    (∀ b, Js.noDoubleHyphen (Js.squashHyphens b l) = true) ∧
    Js.headNotHyphen (Js.squashHyphens true l) = true := by
  induction l with
  | nil => exact ⟨fun b => rfl, rfl⟩
  | cons a cs ih =>
    obtain ⟨ihDD, ihHead⟩ := ih
    cases ha : a == '-' with
    | true =>
      constructor
      · intro b
        cases b with
        | true =>
          rw [show Js.squashHyphens true (a :: cs) = Js.squashHyphens true cs from by
            simp [Js.squashHyphens, ha]]
          exact ihDD true
        | false =>
          rw [show Js.squashHyphens false (a :: cs) =
              '-' :: Js.squashHyphens true cs from by
            simp [Js.squashHyphens, ha]]
          exact Js.noDoubleHyphen_cons '-' _ (Or.inr ihHead) (ihDD true)
      · rw [show Js.squashHyphens true (a :: cs) = Js.squashHyphens true cs from by
          simp [Js.squashHyphens, ha]]
        exact ihHead
    | false =>
      constructor
      · intro b
        rw [show Js.squashHyphens b (a :: cs) = a :: Js.squashHyphens false cs from by
          simp [Js.squashHyphens, ha]]
        exact Js.noDoubleHyphen_cons a _ (Or.inl ha) (ihDD false)
      · rw [show Js.squashHyphens true (a :: cs) = a :: Js.squashHyphens false cs from by
          simp [Js.squashHyphens, ha]]
        simp [Js.headNotHyphen, ha]

/-- A slug character is not whitespace. -/
theorem Js.slugChar_not_ws {c : Char} (h : Js.isSlugChar c = true) :
    Js.isWs c = false := by
  cases hw : Js.isWs c with
  | false => rfl
  | true =>
    exfalso
    unfold Js.isWs at hw
    simp only [Bool.or_eq_true, beq_iff_eq] at hw
    rcases hw with ((((h1 | h1) | h1) | h1) | h1) | h1 <;> subst h1 <;>
      simp [Js.isSlugChar, Js.isLowerAlpha, Js.isDigitCh] at h

/-- dropWhile of the whitespace predicate is the identity on a list with
no whitespace. -/
theorem Js.dropWhile_ws_eq_self (m : List Char)
    (hm : ∀ c ∈ m, Js.isWs c = false) :
    (m.dropWhile fun c => Js.isWs c) = m := by
  cases m with
  | nil => rfl
  | cons x xs =>
    rw [List.dropWhile_cons]
    simp [hm x (List.mem_cons_self x xs)]

/-- trim is the identity on a list with no whitespace. -/
theorem Js.trimL_eq_self (l : List Char) (h : ∀ c ∈ l, Js.isWs c = false) :
    Js.trimL l = l := by
  unfold Js.trimL
  rw [Js.dropWhile_ws_eq_self l h,
    Js.dropWhile_ws_eq_self l.reverse (fun c hc => h c (List.mem_reverse.mp hc)),
    List.reverse_reverse]

/-- C9: generateSlug produces only lowercase letters, digits and hyphens,
never two consecutive hyphens, and every nonempty generated slug passes
the slug regex that validation requires. -/
theorem c9_generate_slug (s : String) :
    (BF.generateSlug s).data.all Js.isSlugChar = true ∧
    Js.noDoubleHyphen (BF.generateSlug s).data = true ∧
    (BF.generateSlug s ≠ "" → Js.slugTest (BF.generateSlug s) = true) := by
  have h0 : ∀ c ∈ (s.data.map Char.toLower).filter
      (fun c => Js.isSlugChar c || Js.isWs c),
      (Js.isSlugChar c || Js.isWs c) = true :=
    fun c hc => (List.mem_filter.mp hc).2
  have h1 := Js.squashWsToHyphen_chars false _ h0
  have h2 : ∀ c ∈ Js.squashHyphens false (Js.squashWsToHyphen false
      ((s.data.map Char.toLower).filter (fun c => Js.isSlugChar c || Js.isWs c))),
      Js.isSlugChar c = true :=
    fun c hc => h1 c (Js.squashHyphens_subset false _ c hc)
  have hDD := (Js.squashHyphens_noDD (Js.squashWsToHyphen false
    ((s.data.map Char.toLower).filter (fun c => Js.isSlugChar c || Js.isWs c)))).1 false
  have htrim := Js.trimL_eq_self
    (Js.squashHyphens false (Js.squashWsToHyphen false
      ((s.data.map Char.toLower).filter (fun c => Js.isSlugChar c || Js.isWs c))))
    (fun c hc => Js.slugChar_not_ws (h2 c hc))
  have hdata : (BF.generateSlug s).data = Js.squashHyphens false
      (Js.squashWsToHyphen false ((s.data.map Char.toLower).filter
        (fun c => Js.isSlugChar c || Js.isWs c))) := htrim
  refine ⟨?_, ?_, ?_⟩
  · rw [hdata]
    exact List.all_eq_true.mpr h2
  · rw [hdata]
    exact hDD
  · intro hne
    have hdne : (BF.generateSlug s).data ≠ [] := by
      intro he
      apply hne
      cases hg : BF.generateSlug s
      rw [hg] at he
      simp_all
    unfold Js.slugTest
    rw [Bool.and_eq_true]
    constructor
    · simp [List.isEmpty_iff, hdne]
    · rw [hdata]
      exact List.all_eq_true.mpr h2

/-- Witness for C9 at the concrete name with an uppercase letter, a space
and a symbol. -/
theorem c9_generate_slug_witness :
    (BF.generateSlug "My Salon!").data.all Js.isSlugChar = true ∧
    Js.noDoubleHyphen (BF.generateSlug "My Salon!").data = true ∧
    Js.slugTest (BF.generateSlug "My Salon!") = true :=
  ⟨(c9_generate_slug "My Salon!").1,
   (c9_generate_slug "My Salon!").2.1,
   (c9_generate_slug "My Salon!").2.2 (by decide)⟩

/-- The submitted payload carries the editable fields of the original
Business object unchanged: every editable field of the object equals the
corresponding field of the payload. -/
def BF.editableMatches (fd : BF.FormData) (b : BF.Business) : Prop :=
  b.name = some fd.name ∧
  b.slug = some fd.slug ∧
  b.contact_phone = some fd.contact_phone ∧
  b.contact_email = some fd.contact_email ∧
  b.sms_phone_number = some fd.sms_phone_number ∧
  b.google_review_link = some fd.google_review_link ∧
  b.google_review_url = some fd.google_review_url ∧
  b.bokadirekt_url = some fd.bokadirekt_url ∧
  b.tone_of_voice = some fd.tone_of_voice ∧
  b.sms_sender_name = some fd.sms_sender_name ∧
  b.inactive_customer_days = some fd.inactive_customer_days ∧
  b.staff_members = some fd.staff_members ∧
  b.org_number = some fd.org_number ∧
  b.billing_address = some fd.billing_address ∧
  b.vat_number = some fd.vat_number ∧
  b.sms_settings = some fd.sms_settings ∧
  b.service_intervals = some fd.service_intervals ∧
  b.bokadirekt_webhook_secret = some fd.bokadirekt_webhook_secret ∧
  b.bokadirekt_location_id = some fd.bokadirekt_location_id

/-- A Business object with every editable field present, built from its
field values. -/
def BF.mkBusiness (idv nm sl cp ce sp grl gru bu tv ssn : String) (icd : Int)
    (staff : List BF.StaffMember) (og ba va : String) (sms : BF.SmsSettings)
    (si : List (String × BF.ServiceConfig)) (ws lid : String) : BF.Business :=
  { id := some idv
    name := some nm
    slug := some sl
    contact_phone := some cp
    contact_email := some ce
    sms_phone_number := some sp
    google_review_link := some grl
    google_review_url := some gru
    bokadirekt_url := some bu
    tone_of_voice := some tv
    sms_sender_name := some ssn
    inactive_customer_days := some icd
    staff_members := some staff
    org_number := some og
    billing_address := some ba
    vat_number := some va
    sms_settings := some sms
    service_intervals := some si
    bokadirekt_webhook_secret := some ws
    bokadirekt_location_id := some lid }

/-- A concrete Business object whose tone_of_voice is the empty string. -/
def BF.sampleBusiness : BF.Business :=
  BF.mkBusiness "b1" "My Salon" "my-salon" "+46701234567" "contact@salon.com"
    "+46123456789" "https://g.page/r" "https://g.page/r2" "https://boka.se/x"
    "" "Salon" 90 [] "556677-8899" "Gatan 1" "SE556677889901"
    BF.defaultSmsSettings [("Herrklippning", { interval_months := 2, template := some "standard" })]
    "s3cret" "loc-1"

/-- JavaScript disjunction defaulting of a present string is the identity
when the default is the empty string. -/
theorem BF.strOr_some_empty_default (s : String) : BF.strOr (some s) "" = s := by
  simp only [BF.strOr]
  by_cases h : s = ""
  · rw [if_pos h, h]
  · rw [if_neg h]

/-- JavaScript disjunction defaulting of a present nonempty string is the
identity. -/
theorem BF.strOr_some_ne (s d : String) (h : s ≠ "") : BF.strOr (some s) d = s := by
  simp only [BF.strOr]
  rw [if_neg h]

/-- JavaScript disjunction defaulting of a present nonzero number is the
identity. -/
theorem BF.intOr_some_ne (n d : Int) (h : n ≠ 0) : BF.intOr (some n) d = n := by
  simp only [BF.intOr]
  rw [if_neg h]

/-- The payload comparison is decidable, each conjunct being a decidable
equality. -/
instance BF.editableMatchesDec (fd : BF.FormData) (b : BF.Business) :
    Decidable (BF.editableMatches fd b) := by
  unfold BF.editableMatches
  infer_instance

/-- Counterexample for C7 as stated: a Business object returned by a GET
whose tone_of_voice is the empty string pre-populates the form with the
default Proffsig instead, submission succeeds, and the onSubmit payload
is not equal to the editable fields of the original object. -/
theorem c7_counterexample :
    BF.sampleBusiness.tone_of_voice = some "" ∧
    BF.validate (BF.initFormData (some BF.sampleBusiness)) = true ∧
    (BF.initFormData (some BF.sampleBusiness)).tone_of_voice = "Proffsig" ∧
    BF.handleSubmit (BF.initFormData (some BF.sampleBusiness)) none =
      some (BF.initFormData (some BF.sampleBusiness), none) ∧
    ¬ BF.editableMatches (BF.initFormData (some BF.sampleBusiness)) BF.sampleBusiness := by
  decide

/-- C7 (amended): for a Business object with every editable field
present, a truthy tone_of_voice, a nonzero inactive_customer_days, and
values that pass client validation, pre-populating the form and
submitting without edits yields an onSubmit payload equal to the editable
fields of the original object.  (JavaScript disjunction defaulting in the
useState initializer replaces falsy or absent fields by form defaults;
see the counterexample.) -/
theorem c7_round_trip
    (idv nm sl cp ce sp grl gru bu tv ssn : String) (icd : Int)
    (staff : List BF.StaffMember) (og ba va : String) (sms : BF.SmsSettings)
    (si : List (String × BF.ServiceConfig)) (ws lid : String) (file : Option String)
    (htone : tv ≠ "") (hdays : icd ≠ 0)
    (hvalid : BF.validate (BF.initFormData (some (BF.mkBusiness idv nm sl cp ce sp
      grl gru bu tv ssn icd staff og ba va sms si ws lid))) = true) :
    BF.handleSubmit (BF.initFormData (some (BF.mkBusiness idv nm sl cp ce sp
        grl gru bu tv ssn icd staff og ba va sms si ws lid))) file =
      some (BF.initFormData (some (BF.mkBusiness idv nm sl cp ce sp
        grl gru bu tv ssn icd staff og ba va sms si ws lid)), file) ∧
    BF.editableMatches
      (BF.initFormData (some (BF.mkBusiness idv nm sl cp ce sp
        grl gru bu tv ssn icd staff og ba va sms si ws lid)))
      (BF.mkBusiness idv nm sl cp ce sp grl gru bu tv ssn icd staff og ba va
        sms si ws lid) := by
  constructor
  · simp [BF.handleSubmit, hvalid]
  · unfold BF.editableMatches BF.initFormData BF.mkBusiness
    simp [BF.strOr_some_empty_default, BF.strOr_some_ne _ _ htone,
      BF.intOr_some_ne _ _ hdays, BF.objOr]

/-- Witness for C7 at a concrete fully populated Business object. -/
theorem c7_round_trip_witness :
    BF.handleSubmit (BF.initFormData (some (BF.mkBusiness "b2" "My Salon" "my-salon"
        "+46701234567" "contact@salon.com" "+46123456789" "https://g.page/r"
        "https://g.page/r2" "https://boka.se/x" "Proffsig" "Salon" 90 []
        "556677-8899" "Gatan 1" "SE556677889901" BF.defaultSmsSettings []
        "s3cret" "loc-1"))) none =
      some (BF.initFormData (some (BF.mkBusiness "b2" "My Salon" "my-salon"
        "+46701234567" "contact@salon.com" "+46123456789" "https://g.page/r"
        "https://g.page/r2" "https://boka.se/x" "Proffsig" "Salon" 90 []
        "556677-8899" "Gatan 1" "SE556677889901" BF.defaultSmsSettings []
        "s3cret" "loc-1")), none) ∧
    BF.editableMatches
      (BF.initFormData (some (BF.mkBusiness "b2" "My Salon" "my-salon"
        "+46701234567" "contact@salon.com" "+46123456789" "https://g.page/r"
        "https://g.page/r2" "https://boka.se/x" "Proffsig" "Salon" 90 []
        "556677-8899" "Gatan 1" "SE556677889901" BF.defaultSmsSettings []
        "s3cret" "loc-1")))
      (BF.mkBusiness "b2" "My Salon" "my-salon" "+46701234567" "contact@salon.com"
        "+46123456789" "https://g.page/r" "https://g.page/r2" "https://boka.se/x"
        "Proffsig" "Salon" 90 [] "556677-8899" "Gatan 1" "SE556677889901"
        BF.defaultSmsSettings [] "s3cret" "loc-1") :=
  c7_round_trip "b2" "My Salon" "my-salon" "+46701234567" "contact@salon.com"
    "+46123456789" "https://g.page/r" "https://g.page/r2" "https://boka.se/x"
    "Proffsig" "Salon" 90 [] "556677-8899" "Gatan 1" "SE556677889901"
    BF.defaultSmsSettings [] "s3cret" "loc-1" none
    (by decide) (by decide) (by decide)
